import Mathlib

/-!
Verification development for the gym-scraper fetch-validate-retry pipeline.

The definitions below are a shallow embedding of the TypeScript sources:
the date normalizer (src/core/dateNormalizer.ts), the trap detector
(src/middleware/trapDetector.ts), the fetch decision layer
(src/middleware/stealthFetcher.ts), the extraction validator
(src/middleware/extractionValidator.ts), header sanitisation of the
day-worker pool (src/agents/dayWorkerPool.ts), the scraper factory
(src/scrapers/index.ts), and the orchestrator (gymScanner.ts).

Modelling conventions:
- JavaScript strings are Lean String values; string algorithms are stated
  on the underlying character list (String.data).
- Floating-point confidence arithmetic is modelled with exact rationals;
  every comparison the theorems touch is far from a rounding boundary.
- External collaborators (the Luxon IANA database, the Supabase sink, the
  live browser page, the HTML parsers) enter as explicit parameters or as
  definitions marked as modelled from the spec.
- Exceptions are modelled with Option / Except.
-/

namespace GymScraper

/-! ## Character classes (JavaScript regex semantics, ASCII fragment) -/

/-- Whitespace as matched by a JavaScript regex backslash-s
(space, tab, LF, VT, FF, CR, NBSP; the inputs here are ASCII). -/
def jsWs (c : Char) : Bool :=
  c.toNat = 32 || c.toNat = 9 || c.toNat = 10 || c.toNat = 11 ||
  c.toNat = 12 || c.toNat = 13 || c.toNat = 160

/-- ASCII decimal digit, the regex class backslash-d. -/
def isDigitCh (c : Char) : Bool :=
  48 ≤ c.toNat && c.toNat ≤ 57

/-- ASCII letter, the regex class [a-zA-Z]. -/
def isAsciiAlphaCh (c : Char) : Bool :=
  (65 ≤ c.toNat && c.toNat ≤ 90) || (97 ≤ c.toNat && c.toNat ≤ 122)

/-- Word character for regex word boundaries: [A-Za-z0-9_]. -/
def isWordCh (c : Char) : Bool :=
  isAsciiAlphaCh c || isDigitCh c || c.toNat = 95

/-- ASCII uppercase conversion (String.prototype.toUpperCase on ASCII). -/
def toUpperCh (c : Char) : Char :=
  if 97 ≤ c.toNat && c.toNat ≤ 122 then Char.ofNat (c.toNat - 32) else c

/-- ASCII lowercase conversion (String.prototype.toLowerCase on ASCII). -/
def toLowerCh (c : Char) : Char :=
  if 65 ≤ c.toNat && c.toNat ≤ 90 then Char.ofNat (c.toNat + 32) else c

/-- The decimal digit character of n mod 10. -/
def digitCh (n : Nat) : Char :=
  Char.ofNat (48 + n % 10)

/-- String.prototype.trim on a character list. -/
def jsTrimL (cs : List Char) : List Char :=
  ((cs.dropWhile jsWs).reverse.dropWhile jsWs).reverse

/-! ## Date and time model

Luxon DateTime values are modelled as a calendar point: a day count since
1970-01-01 in the local calendar of the zone the value lives in, plus
wall-clock components.  An IANA zone is modelled by its offset rule: the
offset east of UTC, in minutes, as a function of the local wall time.
The IANA database itself is an external collaborator and enters as a
parameter mapping zone names to rules. -/

structure LDateTime where
  days : Int
  hour : Nat
  minute : Nat
  second : Nat
  ms : Nat
  deriving Repr, DecidableEq

/-- Offset rule of a zone: minutes east of UTC at a local wall time
(days since epoch, hour, minute). -/
abbrev ZoneRules : Type := Int → Nat → Nat → Int

/-- ISO weekday (1 = Monday .. 7 = Sunday) of a day count since the epoch;
1970-01-01 was a Thursday. -/
def weekdayOf (days : Int) : Nat :=
  ((days + 3).emod 7).toNat + 1

/-- Gregorian calendar date (year, month, day) from a day count since
1970-01-01 (the standard civil-from-days algorithm). -/
def civilFromDays (z0 : Int) : Int × Nat × Nat :=
  let z := z0 + 719468
  let era := Int.fdiv z 146097
  let doe := (z - era * 146097).toNat
  let yoe := (doe - doe / 1460 + doe / 36524 - doe / 146096) / 365
  let y := era * 400 + yoe
  let doy := doe - (365 * yoe + yoe / 4 - yoe / 100)
  let mp := (5 * doy + 2) / 153
  let d := doy - (153 * mp + 2) / 5 + 1
  let m := if mp < 10 then mp + 3 else mp - 9
  (if mp < 10 then y else y + 1, m, d)

/-- The ISO-8601 UTC instant string emitted by Luxon toISO for a UTC
DateTime (years 0..9999): zero-padded year, month, day, T, hour, minute,
second, dot, milliseconds, Z — twenty-four characters, each decimal
place rendered with digitCh. -/
def isoChars (dt : LDateTime) : List Char :=
  let c := civilFromDays dt.days
  [digitCh (c.1.toNat / 1000), digitCh (c.1.toNat / 100),
   digitCh (c.1.toNat / 10), digitCh c.1.toNat,
   '-', digitCh (c.2.1 / 10), digitCh c.2.1,
   '-', digitCh (c.2.2 / 10), digitCh c.2.2,
   'T', digitCh (dt.hour / 10), digitCh dt.hour,
   ':', digitCh (dt.minute / 10), digitCh dt.minute,
   ':', digitCh (dt.second / 10), digitCh dt.second,
   '.', digitCh (dt.ms / 100), digitCh (dt.ms / 10), digitCh dt.ms, 'Z']

/-- Conversion of a local wall time to UTC under a zone offset rule
(Luxon DateTime.toUTC). -/
def toUTC (tz : ZoneRules) (dt : LDateTime) : LDateTime :=
  let total : Int := dt.days * 1440 + dt.hour * 60 + dt.minute - tz dt.days dt.hour dt.minute
  let days := Int.fdiv total 1440
  let rem := (total - days * 1440).toNat
  { days := days, hour := rem / 60, minute := rem % 60,
    second := dt.second, ms := dt.ms }

/-! ## dateNormalizer.ts -/

/-- The DAY_MAP of dateNormalizer.ts: lowercase English day names and
3-letter abbreviations to ISO weekday numbers. -/
def dayMap (s : String) : Option Nat :=
  if s = "monday" then some 1
  else if s = "tuesday" then some 2
  else if s = "wednesday" then some 3
  else if s = "thursday" then some 4
  else if s = "friday" then some 5
  else if s = "saturday" then some 6
  else if s = "sunday" then some 7
  else if s = "mon" then some 1
  else if s = "tue" then some 2
  else if s = "wed" then some 3
  else if s = "thu" then some 4
  else if s = "fri" then some 5
  else if s = "sat" then some 6
  else if s = "sun" then some 7
  else none

/-- resolveNextDay: advance now to the next date whose weekday matches
targetWeekday, today included, via (target - current + 7) mod 7. -/
def resolveNextDay (now : LDateTime) (targetWeekday : Nat) : LDateTime :=
  let daysAhead := ((targetWeekday : Int) - (weekdayOf now.days : Int) + 7).emod 7
  { now with days := now.days + daysAhead }

/-- resolveDate: turn an optional day indicator into a concrete date.
Null and today give the reference day, tomorrow adds one day, a known day
name resolves forward, an unknown word falls back to the reference day. -/
def resolveDate (dayPart : Option String) (now : LDateTime) : LDateTime :=
  match dayPart with
  | none => now
  | some d =>
    if d = "today" then now
    else if d = "tomorrow" then { now with days := now.days + 1 }
    else
      match dayMap d with
      | none => now
      | some t => resolveNextDay now t

/-- Read one ASCII digit character. -/
def readD (c : Char) : Option Nat :=
  if isDigitCh c then some (c.toNat - 48) else none

/-- The optional colon-minutes group of the time regexes.  When a full
colon-and-two-digits group is present it is consumed, otherwise the group
is skipped (equivalent to the regex backtracking behaviour, because a
leftover colon can never match the continuation). -/
def minTail (cs : List Char) : Nat × List Char :=
  match cs with
  | c1 :: c2 :: c3 :: rest =>
    if c1 = ':' && isDigitCh c2 && isDigitCh c3 then
      (10 * (c2.toNat - 48) + (c3.toNat - 48), rest)
    else (0, cs)
  | _ => (0, cs)

/-- End of the anchored 12-hour regex: optional whitespace then exactly
AM or PM and the end of the string (input already uppercased). -/
def ampmEnd (cs : List Char) : Option Bool :=
  let cs2 := cs.dropWhile jsWs
  if cs2 = ['A', 'M'] then some false
  else if cs2 = ['P', 'M'] then some true
  else none

/-- The anchored 12-hour pattern of parseTime: one or two digits, an
optional colon-minutes group, optional whitespace, then AM or PM.  The
two-digit hour is tried first, as the greedy regex does.  Returns
(hour digits value, minutes, isPM). -/
def match12core (cs : List Char) : Option (Nat × Nat × Bool) :=
  let two :=
    match cs with
    | c1 :: c2 :: rest =>
      match readD c1, readD c2 with
      | some d1, some d2 =>
        let mr := minTail rest
        (ampmEnd mr.2).map (fun pm => (10 * d1 + d2, mr.1, pm))
      | _, _ => none
    | _ => none
  two.orElse (fun _ =>
    match cs with
    | c1 :: rest =>
      match readD c1 with
      | some d1 =>
        let mr := minTail rest
        (ampmEnd mr.2).map (fun pm => (d1, mr.1, pm))
      | none => none
    | _ => none)

/-- The mandatory colon-minutes tail of the 24-hour pattern: a colon, two
digits, and the end of the string. -/
def colonTail (cs : List Char) : Option Nat :=
  match cs with
  | c1 :: c2 :: c3 :: [] =>
    if c1 = ':' && isDigitCh c2 && isDigitCh c3 then
      some (10 * (c2.toNat - 48) + (c3.toNat - 48))
    else none
  | _ => none

/-- The anchored 24-hour pattern of parseTime: one or two digits, a colon,
two digits. -/
def match24core (cs : List Char) : Option (Nat × Nat) :=
  let two :=
    match cs with
    | c1 :: c2 :: rest =>
      match readD c1, readD c2 with
      | some d1, some d2 => (colonTail rest).map (fun m => (10 * d1 + d2, m))
      | _, _ => none
    | _ => none
  two.orElse (fun _ =>
    match cs with
    | c1 :: rest =>
      match readD c1 with
      | some d1 => (colonTail rest).map (fun m => (d1, m))
      | none => none
    | _ => none)

/-- parseTime of dateNormalizer.ts on a character list: trim and uppercase,
try the 12-hour shape with the 12-to-24 conversion (12 AM is hour 0,
12 PM is hour 12), then the 24-hour shape; none models the thrown error. -/
def parseTimeL (time : List Char) : Option (Nat × Nat) :=
  let cleaned := (jsTrimL time).map toUpperCh
  match match12core cleaned with
  | some (h, m, pm) =>
    let hour := if pm && h ≠ 12 then h + 12 else if !pm && h = 12 then 0 else h
    some (hour, m)
  | none => match24core cleaned

/-- End of the leading-word regex of splitDayAndTime after the digits and
optional minutes: optional whitespace, then either the end of the string
or a two-letter AM/PM in any letter case (the regex has the i flag). -/
def ampmOptEnd (cs : List Char) : Bool :=
  let cs2 := cs.dropWhile jsWs
  match cs2 with
  | [] => true
  | c1 :: c2 :: [] => (toUpperCh c1 = 'A' || toUpperCh c1 = 'P') && toUpperCh c2 = 'M'
  | _ => false

/-- The time part of the leading-word regex of splitDayAndTime: one or two
digits, optional colon-minutes, optional whitespace, optional AM/PM,
anchored at the end. -/
def isTimeShape (cs : List Char) : Bool :=
  let two :=
    match cs with
    | c1 :: c2 :: rest =>
      isDigitCh c1 && isDigitCh c2 && (ampmOptEnd (minTail rest).2)
    | _ => false
  let one :=
    match cs with
    | c1 :: rest => isDigitCh c1 && (ampmOptEnd (minTail rest).2)
    | _ => false
  two || one

/-- splitDayAndTime of dateNormalizer.ts: an optional leading word (day
indicator, lowercased) separated by whitespace from a time-shaped rest;
otherwise the whole string is the time part. -/
def splitDayAndTime (cs : List Char) : Option (List Char) × List Char :=
  let alpha := cs.takeWhile isAsciiAlphaCh
  let rest1 := cs.dropWhile isAsciiAlphaCh
  let sp := rest1.takeWhile jsWs
  let rest2 := rest1.dropWhile jsWs
  if !alpha.isEmpty && !sp.isEmpty && isTimeShape rest2 then
    (some (alpha.map toLowerCh), rest2)
  else (none, cs)

/-- normalizeDateTime of dateNormalizer.ts on a character list.  The
reference instant (DateTime.now in the gym zone, or the refDate argument)
is the explicit ref parameter.  A none result models the thrown error,
both for an unparseable time and for an out-of-range wall time (which
Luxon turns into an invalid DateTime caught by the isValid check). -/
def normalizeCore (raw : List Char) (tz : ZoneRules) (ref : LDateTime) :
    Option (List Char) :=
  let trimmed := jsTrimL raw
  let dt := splitDayAndTime trimmed
  let targetDate := resolveDate (dt.1.map (fun l => String.mk l)) ref
  match parseTimeL dt.2 with
  | none => none
  | some hm =>
    if hm.1 ≤ 23 && hm.2 ≤ 59 then
      some (isoChars (toUTC tz
        { targetDate with hour := hm.1, minute := hm.2, second := 0, ms := 0 }))
    else none

/-- normalizeDateTime on strings. -/
def normalizeDateTime (raw : String) (tz : ZoneRules) (ref : LDateTime) :
    Option String :=
  (normalizeCore raw.data tz ref).map String.mk

/-- GymScanner.safeNormalize: attempt normalizeDateTime and keep the raw
string when it fails. -/
def safeNormalize (raw : String) (tz : ZoneRules) (ref : LDateTime) : String :=
  (normalizeDateTime raw tz ref).getD raw

/-! ## URL model

The WHATWG URL parser used via new URL(url) is modelled for the plain
http(s) URLs the scraper sees: scheme, host, path segments and query
parameter count (percent-encoding and punycode are not needed by any
input of the theorems below). -/

structure UrlParts where
  hostname : String
  segments : List String
  queryParamCount : Nat
  deriving Repr, DecidableEq

/-- Split a character list at the first scheme separator, yielding the
scheme and the remainder. -/
def breakScheme : List Char → Option (List Char × List Char)
  | [] => none
  | ':' :: '/' :: '/' :: rest => some ([], rest)
  | c :: rest => (breakScheme rest).map (fun p => (c :: p.1, p.2))

/-- Valid URL scheme: a letter followed by letters, digits, plus, minus
or dot. -/
def validScheme (cs : List Char) : Bool :=
  match cs with
  | [] => false
  | c :: rest =>
    isAsciiAlphaCh c &&
      rest.all (fun d => isAsciiAlphaCh d || isDigitCh d || d = '+' || d = '-' || d = '.')

/-- Query parameters as counted by URLSearchParams: split the query on
ampersands and drop empty entries. -/
def queryParams (q : List Char) : Nat :=
  ((q.splitOn '&').filter (fun e => !e.isEmpty)).length

/-- Parse a URL into hostname, path segments and query parameter count;
none models the TypeError thrown by new URL on invalid input. -/
def parseUrl (s : String) : Option UrlParts :=
  match breakScheme s.data with
  | none => none
  | some (scheme, rest) =>
    if !validScheme scheme then none
    else
      let authority := rest.takeWhile (fun c => c ≠ '/' && c ≠ '?' && c ≠ '#')
      let afterAuth := rest.drop authority.length
      let hostPort := if authority.contains '@' then
          ((authority.reverse.takeWhile (fun c => c ≠ '@')).reverse) else authority
      let host := hostPort.takeWhile (fun c => c ≠ ':')
      if host.isEmpty then none
      else
        let path := afterAuth.takeWhile (fun c => c ≠ '?' && c ≠ '#')
        let afterPath := afterAuth.drop path.length
        let query := match afterPath with
          | '?' :: qs => qs.takeWhile (fun c => c ≠ '#')
          | _ => []
        some { hostname := String.mk (host.map toLowerCh),
               segments := ((path.splitOn '/').filter (fun e => !e.isEmpty)).map
                 (fun l => String.mk l),
               queryParamCount := queryParams query }

/-! ## trapDetector.ts -/

inductive TrapReason where
  | depthLimit | alreadyVisited | recursiveSegment | tooManyParams
  | highEntropy | invalidUrl | duplicateContent | lowDensity
  deriving Repr, DecidableEq

/-- Result of a trap check; the human-readable reason string of the source
is projected to its kind. -/
structure TrapCheckResult where
  safe : Bool
  reason : Option TrapReason
  deriving Repr, DecidableEq

/-- The per-host state of TrapDetector: visited URLs, content-hash set and
depth counter, each keyed by hostname (JS Maps and Sets preserve insertion
order, modelled by association lists without duplicate keys). -/
structure TrapState where
  visitedUrls : List (String × List String)
  contentHashes : List (String × List String)
  depthCounters : List (String × Nat)
  deriving Repr, DecidableEq

/-- Fresh detector state. -/
def TrapState.empty : TrapState := ⟨[], [], []⟩

/-- Map lookup on an association list. -/
def alookup {α : Type} (m : List (String × α)) (k : String) : Option α :=
  (m.find? (fun p => p.1 = k)).map (fun p => p.2)

/-- Map.set: replace the value of an existing key in place, else append. -/
def aset {α : Type} (m : List (String × α)) (k : String) (v : α) :
    List (String × α) :=
  if m.any (fun p => p.1 = k) then
    m.map (fun p => if p.1 = k then (k, v) else p)
  else m ++ [(k, v)]

/-- TrapDetector.extractHostname: the URL hostname, or the raw string when
parsing fails. -/
def extractHostname (url : String) : String :=
  match parseUrl url with
  | some p => p.hostname
  | none => url

/-- Shannon entropy of a string exceeds 4.0 bits, stated exactly in the
integers: with character counts cᵢ summing to n, the entropy exceeds 4
iff the product of the cᵢ to the cᵢ times 2 to the 4n is below n to the n.
The source computes the entropy in floating point; no input of the
theorems below sits at the rounding boundary. -/
def entropyGT4 (cs : List Char) : Bool :=
  let n := cs.length
  let counts := cs.dedup.map (fun c => cs.count c)
  (counts.foldl (fun acc k => acc * k ^ k) 1) * 2 ^ (4 * n) < n ^ n

/-- TrapDetector.analyseUrlPattern: reject invalid URLs, a path segment
repeated three or more times, more than eight query parameters, and long
high-entropy path segments. -/
def analyseUrlPattern (url : String) : TrapCheckResult :=
  match parseUrl url with
  | none => ⟨false, some .invalidUrl⟩
  | some p =>
    if p.segments.any (fun s => 3 ≤ p.segments.count s) then
      ⟨false, some .recursiveSegment⟩
    else if 8 < p.queryParamCount then ⟨false, some .tooManyParams⟩
    else if p.segments.any (fun s => 20 < s.length && entropyGT4 s.data) then
      ⟨false, some .highEntropy⟩
    else ⟨true, none⟩

/-- TrapDetector.checkUrl: depth limit, already-visited URL, then URL
pattern analysis.  Reads the state without changing it. -/
def checkUrl (st : TrapState) (maxDepth : Nat) (url : String) : TrapCheckResult :=
  let hostname := extractHostname url
  let currentDepth := (alookup st.depthCounters hostname).getD 0
  if maxDepth ≤ currentDepth then ⟨false, some .depthLimit⟩
  else
    let visited := (alookup st.visitedUrls hostname).getD []
    if visited.contains url then ⟨false, some .alreadyVisited⟩
    else
      let pr := analyseUrlPattern url
      if !pr.safe then pr else ⟨true, none⟩

/-- Maximal whitespace-free runs of a character list; the fuel argument
bounds the recursion by the list length (each step consumes at least one
character). -/
def nonWsRunsGo : Nat → List Char → List (List Char)
  | 0, _ => []
  | _ + 1, [] => []
  | fuel + 1, c :: rest =>
    if jsWs c then nonWsRunsGo fuel rest
    else (c :: rest.takeWhile (fun d => !jsWs d)) ::
      nonWsRunsGo fuel (rest.dropWhile (fun d => !jsWs d))

/-- The nonempty pieces of a split on whitespace runs. -/
def nonWsRuns (cs : List Char) : List (List Char) :=
  nonWsRunsGo cs.length cs

/-- Case-insensitive literal match at the head of a list, yielding the
remainder. -/
def litMatch (w : List Char) (cs : List Char) : Option (List Char) :=
  if (cs.take w.length).map toLowerCh = w then some (cs.drop w.length) else none

/-- Tail of the schedule-token time alternative after the hour digits:
optional colon-minutes, optional whitespace, then am or pm in any letter
case; yields the remainder after the match. -/
def ampmScan (cs : List Char) : Option (List Char) :=
  let r := ((minTail cs).2).dropWhile jsWs
  match r with
  | a :: b :: rest =>
    if (toLowerCh a = 'a' || toLowerCh a = 'p') && toLowerCh b = 'm' then some rest
    else none
  | _ => none

/-- The time alternative of the schedule-token regex: one or two digits,
optional colon-minutes, optional whitespace, then am or pm (two digits
tried first, as the greedy regex does). -/
def timeAltMatch (cs : List Char) : Option (List Char) :=
  match cs with
  | c1 :: c2 :: rest =>
    if isDigitCh c1 && isDigitCh c2 then ampmScan rest
    else if isDigitCh c1 then ampmScan (c2 :: rest)
    else none
  | _ => none

/-- The literal alternatives of the schedule-token regex, in source
order: the seven day names and the fixed gym vocabulary. -/
def scheduleVocab : List (List Char) :=
  ["monday".data, "tuesday".data, "wednesday".data, "thursday".data,
   "friday".data, "saturday".data, "sunday".data, "yoga".data, "pilates".data,
   "hiit".data, "spin".data, "cycle".data, "crossfit".data, "barre".data,
   "boxing".data, "instructor".data, "coach".data, "studio".data, "class".data]

/-- First literal alternative matching at the head of the list. -/
def litAny : List (List Char) → List Char → Option (List Char)
  | [], _ => none
  | w :: ws, cs => (litMatch w cs).orElse (fun _ => litAny ws cs)

/-- One schedule-token alternative at the head of the list (time shape
first, then the vocabulary, mirroring the alternation order). -/
def vocabAt (cs : List Char) : Option (List Char) :=
  (timeAltMatch cs).orElse (fun _ => litAny scheduleVocab cs)

/-- Word boundary against the remainder of the string. -/
def bdryAfter (cs : List Char) : Bool :=
  match cs with
  | [] => true
  | c :: _ => !isWordCh c

/-- Count the global matches of the schedule-token regex: scan left to
right, requiring a word boundary on both sides of a match and resuming
after it.  The fuel argument bounds the recursion by the list length. -/
def scanTokens : Nat → Option Char → List Char → Nat
  | 0, _, _ => 0
  | _, _, [] => 0
  | fuel + 1, prev, c :: rest =>
    let bOk := match prev with
      | none => true
      | some p => !isWordCh p
    match (if bOk then vocabAt (c :: rest) else none) with
    | some r =>
      if bdryAfter r then
        let matched := (c :: rest).take ((c :: rest).length - r.length)
        1 + scanTokens fuel matched.getLast? r
      else scanTokens fuel (some c) rest
    | none => scanTokens fuel (some c) rest

/-- Number of schedule-like tokens in a text (the match count of the
schedule pattern of checkInformationDensity). -/
def countScheduleTokens (cs : List Char) : Nat :=
  scanTokens (cs.length + 1) none cs

/-- TrapDetector.checkInformationDensity: pages under 100 words are safe;
over 500 words with schedule-token density below 0.005 (stated exactly:
200 tokens below the word count) and zero extracted classes are flagged. -/
def checkInformationDensity (content : List Char) (classCount : Nat) :
    TrapCheckResult :=
  let words := (nonWsRuns content).filter (fun w => 1 < w.length)
  let wordCount := words.length
  if wordCount < 100 then ⟨true, none⟩
  else
    let scheduleTokens := countScheduleTokens content
    if 500 < wordCount && 200 * scheduleTokens < wordCount && classCount = 0 then
      ⟨false, some .lowDensity⟩
    else ⟨true, none⟩

/-- TrapDetector.checkContent.  The hashFn parameter stands for the
SHA-256 16-hex-prefix content hash of the source (the node crypto library
is external); every theorem below holds for an arbitrary hash function.
On rejection (duplicate hash or low density) the state is returned
untouched; on pass the hash is recorded, the URL marked visited and the
depth counter incremented. -/
def checkContent (hashFn : String → String) (st : TrapState)
    (url content : String) (classCount : Nat) : TrapCheckResult × TrapState :=
  let hostname := extractHostname url
  let hash := hashFn content
  let hashes := (alookup st.contentHashes hostname).getD []
  if hashes.contains hash then (⟨false, some .duplicateContent⟩, st)
  else
    let dr := checkInformationDensity content.data classCount
    if !dr.safe then (dr, st)
    else
      let st1 := { st with contentHashes := aset st.contentHashes hostname (hashes ++ [hash]) }
      let visited := (alookup st.visitedUrls hostname).getD []
      let visited2 := if visited.contains url then visited else visited ++ [url]
      let st2 := { st1 with visitedUrls := aset st1.visitedUrls hostname visited2 }
      let newDepth := ((alookup st.depthCounters hostname).getD 0) + 1
      let st3 := { st2 with depthCounters := aset st2.depthCounters hostname newDepth }
      (⟨true, none⟩, st3)

/-! ## scrapers/index.ts -/

/-- Substring containment, String.prototype.includes. -/
def includesL (needle : List Char) : List Char → Bool
  | [] => needle.isEmpty
  | c :: rest => needle.isPrefixOf (c :: rest) || includesL needle rest

/-- MindBody platform signature. -/
def mindBodySignature (html : String) : Bool :=
  includesL "healcode".data html.data || includesL "mindbodyonline.com".data html.data ||
    includesL "hc-widget".data html.data

/-- Glofox platform signature. -/
def glofoxSignature (html : String) : Bool :=
  includesL "glofox".data html.data

/-- Marianatek platform signature. -/
def marianatekSignature (html : String) : Bool :=
  includesL "marianatek".data html.data || includesL "mariana-schedule".data html.data

/-- The scrapers available to the factory; only GenericScraper is
implemented in the source. -/
inductive ScraperKind where
  | generic
  deriving Repr, DecidableEq

/-- getScraperForHtml of scrapers/index.ts.  The three platform branches
are present in the source but their bodies are TODO comments, so every
branch falls through to the generic scraper. -/
def getScraperForHtml (html : String) : ScraperKind :=
  if mindBodySignature html then ScraperKind.generic
  else if glofoxSignature html then ScraperKind.generic
  else if marianatekSignature html then ScraperKind.generic
  else ScraperKind.generic

/-! ## dayWorkerPool.ts sanitiseHeaders -/

/-- The skip set of sanitiseHeaders. -/
def headerSkipSet : List String :=
  ["host", "content-length", "transfer-encoding", "connection", "cookie",
   "sec-fetch-site", "sec-fetch-mode", "sec-fetch-dest"]

/-- Lowercase a string, String.prototype.toLowerCase (ASCII inputs). -/
def toLowerStr (s : String) : String :=
  String.mk (s.data.map toLowerCh)

/-- sanitiseHeaders of dayWorkerPool.ts: copy every header whose
lowercased name is not in the skip set, in order, unchanged. -/
def sanitiseHeaders (headers : List (String × String)) : List (String × String) :=
  headers.filter (fun kv => !(headerSkipSet.contains (toLowerStr kv.1)))

/-! ## Entity model (core/types.ts) -/

structure Organization where
  name : String
  websiteUrl : String
  deriving Repr, DecidableEq

structure Location where
  name : String
  address : Option String
  timezone : String
  deriving Repr, DecidableEq

structure GymClass where
  name : String
  startTime : String
  endTime : Option String
  instructor : Option String
  spotsTotal : Option Nat
  locationId : Option String
  deriving Repr, DecidableEq

structure ScrapeResult where
  organization : Organization
  locations : List Location
  classes : List GymClass
  deriving Repr, DecidableEq

/-! ## extractionValidator.ts

The live Puppeteer page is an external collaborator; the two DOM-driven
checks see it through the PageSignals record: whether an enabled
pagination control with one of the fixed keywords was found, and whether
a password input is present.  A validator run on the light path has no
page and skips both checks, as the source does. -/

inductive RetryHint where
  | paginateForward | waitLonger | switchToBrowser | reAuthenticate
  deriving Repr, DecidableEq

/-- An exact nonnegative fraction.  The confidence arithmetic of the
validator is exact on the model inputs (the factors are tenths and at
most five are multiplied), so fractions without normalization represent
it faithfully; Frac.val is the rational value used in statements. -/
structure Frac where
  num : Nat
  den : Nat
  deriving Repr, DecidableEq

def Frac.mul (a b : Frac) : Frac := ⟨a.num * b.num, a.den * b.den⟩

/-- The value of a fraction as a rational number. -/
def Frac.val (c : Frac) : ℚ := (c.num : ℚ) / (c.den : ℚ)

/-- Whether one half is at most the value of the fraction (the
confidence acceptance threshold). -/
def Frac.halfLe (c : Frac) : Bool := c.den ≤ 2 * c.num

/-- One check result: a multiplicative confidence factor and an optional
retry hint (the signal string of the source is not modelled). -/
structure CheckOut where
  factor : Frac
  hint : Option RetryHint
  deriving Repr, DecidableEq

structure PageSignals where
  paginationFound : Bool
  passwordField : Bool
  deriving Repr, DecidableEq

structure ValidatorResult where
  valid : Bool
  confidence : Frac
  retryHint : Option RetryHint
  deriving Repr, DecidableEq

/-- checkCountPlausibility: zero classes factor 0.1 hint wait-longer,
fewer than three factor 0.5 hint paginate-forward, else factor 1. -/
def checkCountPlausibility (r : ScrapeResult) : CheckOut :=
  let count := r.classes.length
  if count = 0 then ⟨⟨1, 10⟩, some .waitLonger⟩
  else if count < 3 then ⟨⟨5, 10⟩, some .paginateForward⟩
  else ⟨⟨1, 1⟩, none⟩

/-- The garbled-markup character class of checkContentCoherence. -/
def garbledPattern (c : Char) : Bool :=
  c = '<' || c = '>' || c.toNat = 123 || c.toNat = 125 ||
    c = '[' || c = ']' || c = '\\'

/-- checkContentCoherence: skip on zero classes; garbled-name share above
0.3 gives factor 0.2 and switch-to-browser, any garbled name factor 0.7. -/
def checkContentCoherence (r : ScrapeResult) : CheckOut :=
  if r.classes.length = 0 then ⟨⟨1, 1⟩, none⟩
  else
    let garbledCount := (r.classes.filter (fun c => c.name.data.any garbledPattern)).length
    if 3 * r.classes.length < 10 * garbledCount then ⟨⟨2, 10⟩, some .switchToBrowser⟩
    else if 0 < garbledCount then ⟨⟨7, 10⟩, none⟩
    else ⟨⟨1, 1⟩, none⟩

/-- checkDuplicates: skip with one class or fewer; unique (name, start)
share below 0.3 gives factor 0.2 and wait-longer, below 0.5 factor 0.6. -/
def checkDuplicates (r : ScrapeResult) : CheckOut :=
  if r.classes.length ≤ 1 then ⟨⟨1, 1⟩, none⟩
  else
    let seen := (r.classes.map (fun c => c.name ++ "::" ++ c.startTime)).dedup
    if 10 * seen.length < 3 * r.classes.length then ⟨⟨2, 10⟩, some .waitLonger⟩
    else if 2 * seen.length < r.classes.length then ⟨⟨6, 10⟩, none⟩
    else ⟨⟨1, 1⟩, none⟩

/-- checkPaginationState: an enabled pagination control with one of the
fixed keywords gives factor 0.7 and paginate-forward (a failed DOM
inspection counts as not found, as the catch branch does). -/
def checkPaginationState (sg : PageSignals) : CheckOut :=
  if sg.paginationFound then ⟨⟨7, 10⟩, some .paginateForward⟩ else ⟨⟨1, 1⟩, none⟩

/-- Case-insensitive literal prefix test. -/
def prefixCi (w : List Char) (cs : List Char) : Bool :=
  (cs.take w.length).map toLowerCh = w

/-- Words separated by optional whitespace, matched at the head of the
list (the shape of the login-indicator regexes, which use an optional
whitespace gap). -/
def gapTail : List (List Char) → List Char → Bool
  | [], _ => true
  | w :: ws, cs =>
    let cs2 := cs.dropWhile jsWs
    prefixCi w cs2 && gapTail ws (cs2.drop w.length)

/-- Unanchored search for words separated by optional whitespace. -/
def gapPatHolds (words : List (List Char)) : List Char → Bool
  | [] => gapTail words []
  | c :: rest => gapTail words (c :: rest) || gapPatHolds words rest

/-- The four login-indicator patterns of checkAuthWall. -/
def loginPatternCount (html : String) : Nat :=
  let pats : List (List (List Char)) :=
    [["sign".data, "in".data], ["log".data, "in".data],
     ["enter".data, "your".data, "password".data],
     ["authentication".data, "required".data]]
  (pats.filter (fun p => gapPatHolds p html.data)).length

/-- checkAuthWall: a password field gives factor 0.1 and re-authenticate;
two or more login indicators in the HTML give factor 0.4 and
re-authenticate. -/
def checkAuthWall (sg : PageSignals) (html : String) : CheckOut :=
  if sg.passwordField then ⟨⟨1, 10⟩, some .reAuthenticate⟩
  else if 2 ≤ loginPatternCount html then ⟨⟨4, 10⟩, some .reAuthenticate⟩
  else ⟨⟨1, 1⟩, none⟩

/-- validateExtraction: run the checks in order, multiply the confidence
factors, keep the first retry hint, and accept when confidence reaches
0.5.  The page-dependent checks run only when a live page is present. -/
def validateExtraction (r : ScrapeResult) (page : Option PageSignals)
    (html : String) : ValidatorResult :=
  let c1 := checkCountPlausibility r
  let c2 := checkContentCoherence r
  let c3 := checkDuplicates r
  let conf3 := (c1.factor.mul c2.factor).mul c3.factor
  let hint3 := (c1.hint.orElse (fun _ => c2.hint)).orElse (fun _ => c3.hint)
  match page with
  | none =>
    { valid := conf3.halfLe, confidence := conf3, retryHint := hint3 }
  | some sg =>
    let c4 := checkPaginationState sg
    let c5 := checkAuthWall sg html
    let conf := (conf3.mul c4.factor).mul c5.factor
    let hint := (hint3.orElse (fun _ => c4.hint)).orElse (fun _ => c5.hint)
    { valid := conf.halfLe, confidence := conf, retryHint := hint }

/-! ## stealthFetcher.ts -/

/-- Tail of the unanchored time pattern of looksLikeRenderedSchedule after
the hour digits: optional colon-minutes, optional whitespace, then AM, PM,
am or pm exactly (the pattern has no ignore-case flag). -/
def ampmExact (cs : List Char) : Bool :=
  let r := ((minTail cs).2).dropWhile jsWs
  match r with
  | a :: b :: _ =>
    (a = 'A' && b = 'M') || (a = 'P' && b = 'M') ||
      (a = 'a' && b = 'm') || (a = 'p' && b = 'm')
  | _ => false

/-- One position of the time-like pattern: one or two digits, optional
colon-minutes, optional whitespace, AM or PM. -/
def timeTokenAt (cs : List Char) : Bool :=
  match cs with
  | c1 :: c2 :: rest =>
    (isDigitCh c1 && isDigitCh c2 && ampmExact rest) ||
      (isDigitCh c1 && ampmExact (c2 :: rest))
  | _ => false

/-- The time-like test of looksLikeRenderedSchedule (unanchored search). -/
def hasTimeToken : List Char → Bool
  | [] => false
  | c :: rest => timeTokenAt (c :: rest) || hasTimeToken rest

/-- The seven full day names of the day-name pattern. -/
def dayNames : List (List Char) :=
  ["monday".data, "tuesday".data, "wednesday".data, "thursday".data,
   "friday".data, "saturday".data, "sunday".data]

/-- One position of the day-name pattern: a word boundary, a day name in
any letter case, a word boundary. -/
def dayTokenAt (prevOk : Bool) (cs : List Char) : Bool :=
  prevOk && dayNames.any (fun w =>
    prefixCi w cs && bdryAfter (cs.drop w.length))

/-- The day-name test of looksLikeRenderedSchedule (unanchored search with
word boundaries, ignore-case). -/
def hasDayTokenFrom (prev : Option Char) : List Char → Bool
  | [] => false
  | c :: rest =>
    dayTokenAt (match prev with | none => true | some p => !isWordCh p) (c :: rest) ||
      hasDayTokenFrom (some c) rest

def hasDayToken (cs : List Char) : Bool :=
  hasDayTokenFrom none cs

/-- looksLikeRenderedSchedule: the body contains at least one time-like
token and at least one day-name token. -/
def looksLikeRenderedSchedule (html : String) : Bool :=
  hasTimeToken html.data && hasDayToken html.data

/-- Decidable equality for Except values with decidable components. -/
instance {ε α : Type} [DecidableEq ε] [DecidableEq α] : DecidableEq (Except ε α) :=
  fun x y =>
  match x, y with
  | .error a, .error b =>
    if h : a = b then isTrue (by rw [h]) else isFalse (fun e => h (Except.error.inj e))
  | .ok a, .ok b =>
    if h : a = b then isTrue (by rw [h]) else isFalse (fun e => h (Except.ok.inj e))
  | .error _, .ok _ => isFalse (fun e => Except.noConfusion e)
  | .ok _, .error _ => isFalse (fun e => Except.noConfusion e)

inductive FetchMethod where
  | light | browser
  deriving Repr, DecidableEq

/-- FetchResult of the fetch layer.  A browser-path result carries the
live page, modelled by the DOM signals the validator can read from it
(page none means no live page). -/
structure FetchResult where
  html : String
  statusCode : Nat
  fetchMethod : FetchMethod
  page : Option PageSignals
  deriving Repr, DecidableEq

/-- Outcome of the external light HTTP client (got-scraping): an error or
a status code and body. -/
structure LightResponse where
  statusCode : Nat
  body : String
  deriving Repr, DecidableEq

/-- Outcome of the external browser navigation: status code, captured
HTML after settle, and the DOM signals of the live page. -/
structure BrowserFetch where
  statusCode : Nat
  html : String
  signals : PageSignals
  deriving Repr, DecidableEq

/-- The external world of one fetchWithStealth call: the robots verdict
and the replies of the light client and of the browser. -/
structure FetchWorld where
  robotsAllowed : Bool
  light : Except Unit LightResponse
  browser : Except Unit BrowserFetch
  deriving Repr

/-- The browser path of fetchWithStealth: navigate, abort on a 402
paywall (closing the context), otherwise return the captured HTML with
the live page attached. -/
def browserFetchPath (browser : Except Unit BrowserFetch) :
    Except Unit FetchResult :=
  match browser with
  | .error e => .error e
  | .ok bf =>
    if bf.statusCode = 402 then
      .ok { html := "", statusCode := 402, fetchMethod := .browser, page := none }
    else
      .ok { html := bf.html, statusCode := bf.statusCode, fetchMethod := .browser,
            page := some bf.signals }

/-- fetchWithStealth: robots gate, then (unless the caller forces the
browser) the light path.  A light 402 is returned as a paywall result
without fallback; a light 200 whose body looks like a rendered schedule
is accepted; any other light outcome falls back to the browser path. -/
def fetchWithStealth (w : FetchWorld) (forceBrowser : Bool) :
    Except Unit FetchResult :=
  if !w.robotsAllowed then
    .ok { html := "", statusCode := 0, fetchMethod := .light, page := none }
  else if forceBrowser then browserFetchPath w.browser
  else
    match w.light with
    | .error _ => browserFetchPath w.browser
    | .ok lr =>
      if lr.statusCode = 402 then
        .ok { html := "", statusCode := 402, fetchMethod := .light, page := none }
      else if lr.statusCode = 200 && looksLikeRenderedSchedule lr.body then
        .ok { html := lr.body, statusCode := lr.statusCode, fetchMethod := .light,
              page := none }
      else browserFetchPath w.browser

/-! ## supabaseService.ts and the upsert sink -/

/-- Numeric value of two decimal digit characters. -/
def twoVal (a b : Char) : Nat :=
  10 * (a.toNat - 48) + (b.toNat - 48)

/-- A well-formed ISO-8601 UTC instant of the shape the normalizer emits:
year, month, day, T, hour, minute, second, millisecond, Z, with in-range
fields. -/
def isUtcInstantL (cs : List Char) : Bool :=
  match cs with
  | [y1, y2, y3, y4, s1, m1, m2, s2, d1, d2, t1, h1, h2, s3, n1, n2, s4,
     e1, e2, s5, x1, x2, x3, z1] =>
    isDigitCh y1 && isDigitCh y2 && isDigitCh y3 && isDigitCh y4 &&
    s1 = '-' && isDigitCh m1 && isDigitCh m2 && s2 = '-' &&
    isDigitCh d1 && isDigitCh d2 && t1 = 'T' &&
    isDigitCh h1 && isDigitCh h2 && s3 = ':' &&
    isDigitCh n1 && isDigitCh n2 && s4 = ':' &&
    isDigitCh e1 && isDigitCh e2 && s5 = '.' &&
    isDigitCh x1 && isDigitCh x2 && isDigitCh x3 && z1 = 'Z' &&
    1 ≤ twoVal m1 m2 && twoVal m1 m2 ≤ 12 &&
    1 ≤ twoVal d1 d2 && twoVal d1 d2 ≤ 31 &&
    twoVal h1 h2 ≤ 23 && twoVal n1 n2 ≤ 59 && twoVal e1 e2 ≤ 59
  | _ => false

/-- A string holding a valid absolute UTC instant. -/
def isUtcInstant (s : String) : Bool :=
  isUtcInstantL s.data

/-- Modelled from the spec: the database behind
SupabaseService.upsertClasses is an external collaborator.  The source
sends every row in one batch request and returns the number of affected
rows; per spec invariant 1 and section 7, the sink rejects malformed
inputs (a start or end time that is not a valid UTC instant, or a missing
location reference violating the not-null foreign key), and because the
batch is a single request a rejected row fails the whole batch.  An
accepted batch reports one affected row per sent row. -/
def upsertClasses (classes : List GymClass) : Except Unit Nat :=
  if classes.isEmpty then .ok 0
  else if classes.all (fun c =>
      isUtcInstant c.startTime &&
      (match c.endTime with | some e => isUtcInstant e | none => true) &&
      c.locationId.isSome) then
    .ok classes.length
  else .error ()

/-- Outcomes of the organization and location upserts, which feed the
class upsert only through the returned identifiers; both are external
database calls and enter as world functions. -/
structure PersistWorld where
  orgUpsert : Organization → Except Unit String
  locUpsert : List Location → Except Unit (List (String × String))

/-! ## gymScanner.ts -/

structure ScanResult where
  organizationId : String
  locationIds : List String
  classesUpserted : Nat
  deriving Repr, DecidableEq

inductive ScanError where
  | trapDetected | fetchError | paywall | emptyResponse | extractError
  | persistError
  deriving Repr, DecidableEq

/-- The observable side effects the claims speak about: invoking a
scraper and invoking the class upsert. -/
inductive Effect where
  | extractEff | upsertEff
  deriving Repr, DecidableEq

/-- Execution trace of a run: the effects in order, and the scrape result
of the attempt whose persist stage produced the returned value. -/
structure RunTrace where
  effects : List Effect
  finalScrape : Option ScrapeResult
  deriving Repr, DecidableEq

/-- Stage 7 (Normalise) of GymScanner.run and its copy in runWithOptions:
replace a UTC location timezone by the gymTimezone argument, and
normalize every class start and end time with safeNormalize in the
gymTimezone.  The IANA database enters as the db parameter and the
current instant as now. -/
def stage7 (db : String → ZoneRules) (now : LDateTime) (gymTz : String)
    (s : ScrapeResult) : List Location × List GymClass :=
  let locationsWithTimezone := s.locations.map (fun l =>
    { l with timezone := if l.timezone ≠ "UTC" then l.timezone else gymTz })
  let tz := db gymTz
  let normalizedClasses := s.classes.map (fun c =>
    { c with startTime := safeNormalize c.startTime tz now,
             endTime := match c.endTime with
               | some e => if e = "" then none else some (safeNormalize e tz now)
               | none => none })
  (locationsWithTimezone, normalizedClasses)

/-- Stage 8 (Persist): organization, then locations, then classes with
the default-location fallback for orphan classes.  Any sink failure is a
persist error; the upsert effect is recorded when the class upsert is
reached. -/
def persistStages (pw : PersistWorld) (org : Organization)
    (locs : List Location) (ncls : List GymClass) :
    Except ScanError ScanResult × List Effect :=
  match pw.orgUpsert org with
  | .error _ => (.error .persistError, [])
  | .ok orgId =>
    match pw.locUpsert locs with
    | .error _ => (.error .persistError, [])
    | .ok locationMap =>
      let defaultLocationId := (locationMap.map (fun p => p.2)).head?
      let classesWithFks := ncls.map (fun c =>
        { c with locationId := c.locationId.orElse (fun _ => defaultLocationId) })
      match upsertClasses classesWithFks with
      | .error _ => (.error .persistError, [Effect.upsertEff])
      | .ok n =>
        (.ok { organizationId := orgId,
               locationIds := locationMap.map (fun p => p.2),
               classesUpserted := n }, [Effect.upsertEff])

/-- Stages 7 and 8 for one extracted scrape result. -/
def attemptTail (pw : PersistWorld) (db : String → ZoneRules) (now : LDateTime)
    (gymTz : String) (s : ScrapeResult) : Except ScanError ScanResult × List Effect :=
  let st7 := stage7 db now gymTz s
  persistStages pw s.organization st7.1 st7.2

/-- The external world of one runWithOptions attempt: its fetch, the HTML
captured after the extra settle wait, the external parser, and the
persist outcomes. -/
structure AttemptWorld where
  fetch : FetchWorld
  waitHtml : String
  extractFn : String → Except Unit ScrapeResult
  persist : PersistWorld

/-- GymScanner.runWithOptions: fetch (optionally forced to the browser),
optionally re-capture HTML after an extra wait when a live page exists,
extract, then normalize and persist.  No empty-body or paywall check and
no validation happen on this path. -/
def runWithOptionsModel (aw : AttemptWorld) (db : String → ZoneRules)
    (now : LDateTime) (gymTz : String) (forceBrowser extraWait : Bool) :
    Except ScanError ScanResult × RunTrace :=
  match fetchWithStealth aw.fetch forceBrowser with
  | .error _ => (.error .fetchError, ⟨[], none⟩)
  | .ok fr0 =>
    let fr := if extraWait && fr0.page.isSome then { fr0 with html := aw.waitHtml }
              else fr0
    match aw.extractFn fr.html with
    | .error _ => (.error .extractError, ⟨[.extractEff], none⟩)
    | .ok s =>
      let pr := attemptTail aw.persist db now gymTz s
      (pr.1, ⟨.extractEff :: pr.2, some s⟩)

/-- GymScanner.retryWithHint: every hint forces the browser, wait-longer
adds the extra settle wait; an exception during the retry yields null. -/
def retryWithHint (aw : AttemptWorld) (db : String → ZoneRules)
    (now : LDateTime) (gymTz : String) (hint : RetryHint) :
    Option ScanResult × RunTrace :=
  let r := runWithOptionsModel aw db now gymTz true (hint = RetryHint.waitLonger)
  match r.1 with
  | .ok res => (some res, r.2)
  | .error _ => (none, r.2)

/-- The external world of the Stage 4 planner: whether planNavigation
throws, its auth-wall and load-more findings, the world of the forced
refetch after a login, and the HTML re-captured after the load-more click
(none when the click fails). -/
structure PlanWorld where
  planFails : Bool
  authWallDetected : Bool
  refetch : FetchWorld
  loadMoreFound : Bool
  recapturedHtml : Option String

/-- The load-more part of Stage 4: when the plan found a load-more
selector and a live page exists, replace the HTML by the re-captured
content (keeping it on a failed click). -/
def applyLoadMore (pw : PlanWorld) (fr : FetchResult) : FetchResult :=
  if pw.loadMoreFound && fr.page.isSome then
    match pw.recapturedHtml with
    | some h => { fr with html := h }
    | none => fr
  else fr

/-- Stage 4 (Plan) of GymScanner.run: runs only with a live page and an
OpenAI key; a planner exception leaves the fetch result unchanged; on a
detected auth wall the page is re-fetched with the browser forced (an
exception there aborts the stage, as the shared catch does); then the
load-more click. -/
def planStage (hasKey : Bool) (pw : PlanWorld) (fr : FetchResult) : FetchResult :=
  if fr.page.isSome && hasKey then
    if pw.planFails then fr
    else if pw.authWallDetected then
      match fetchWithStealth pw.refetch true with
      | .error _ => fr
      | .ok fr2 => applyLoadMore pw fr2
    else applyLoadMore pw fr
  else fr

/-- Tag stripping of the post-extraction content check:
html.replace of every tag-shaped span by a space. -/
def stripTagsGo : Nat → List Char → List Char
  | 0, cs => cs
  | _ + 1, [] => []
  | fuel + 1, c :: rest =>
    if c = '<' then
      let body := rest.takeWhile (fun d => d ≠ '>')
      if !body.isEmpty && (rest.drop body.length).head? = some '>' then
        ' ' :: stripTagsGo fuel (rest.drop (body.length + 1))
      else c :: stripTagsGo fuel rest
    else c :: stripTagsGo fuel rest

def stripTags (cs : List Char) : List Char :=
  stripTagsGo cs.length cs

/-- The external world of one GymScanner.run: the first fetch, the
configuration and planner world, the external parser, the persist
outcomes, the world of the single retry, the content hash function, the
IANA database, and the current instant. -/
structure RunWorld where
  fetch1 : FetchWorld
  hasOpenaiKey : Bool
  plan : PlanWorld
  extractFn : String → Except Unit ScrapeResult
  persist : PersistWorld
  retry : AttemptWorld
  hashFn : String → String
  db : String → ZoneRules
  now : LDateTime

/-- GymScanner.run: trap guard, fetch, paywall and empty-body handling,
plan, extract, validate with a single hint-driven retry, post-extraction
content check (warn only), normalize, persist.  Returns the scan result
or error, the trace, and the trap detector state after the run. -/
def runModel (w : RunWorld) (maxDepth : Nat) (trap : TrapState)
    (url gymTz : String) : Except ScanError ScanResult × RunTrace × TrapState :=
  let tc := checkUrl trap maxDepth url
  if !tc.safe then (.error .trapDetected, ⟨[], none⟩, trap)
  else
    match fetchWithStealth w.fetch1 false with
    | .error _ => (.error .fetchError, ⟨[], none⟩, trap)
    | .ok fr0 =>
      if fr0.html = "" then
        if fr0.statusCode = 402 then (.error .paywall, ⟨[], none⟩, trap)
        else (.error .emptyResponse, ⟨[], none⟩, trap)
      else
        let fr := planStage w.hasOpenaiKey w.plan fr0
        match w.extractFn fr.html with
        | .error _ => (.error .extractError, ⟨[.extractEff], none⟩, trap)
        | .ok s =>
          let v := validateExtraction s fr.page fr.html
          match (if !v.valid then v.retryHint else none) with
          | some hint =>
            let r := retryWithHint w.retry w.db w.now gymTz hint
            match r.1 with
            | some res =>
              (.ok res, ⟨.extractEff :: r.2.effects, r.2.finalScrape⟩, trap)
            | none =>
              let bodyText := String.mk (stripTags fr.html.data)
              let cres := checkContent w.hashFn trap url bodyText s.classes.length
              let tail := attemptTail w.persist w.db w.now gymTz s
              (tail.1, ⟨.extractEff :: (r.2.effects ++ tail.2), some s⟩, cres.2)
          | none =>
            let bodyText := String.mk (stripTags fr.html.data)
            let cres := checkContent w.hashFn trap url bodyText s.classes.length
            let tail := attemptTail w.persist w.db w.now gymTz s
            (tail.1, ⟨.extractEff :: tail.2, some s⟩, cres.2)

/-! ## Concrete instances used by witnesses and counterexamples -/

/-- The UTC zone rule: offset zero everywhere. -/
def utcZone : ZoneRules := fun _ _ _ => 0

/-- A zone rule with a constant +60 minute offset. -/
def plus60Zone : ZoneRules := fun _ _ _ => 60

/-- A reference instant: the epoch midnight. -/
def epochRef : LDateTime := ⟨0, 0, 0, 0, 0⟩

/-- An IANA database with the UTC zone and one +60 zone named Z60. -/
def dbTwoZones : String → ZoneRules :=
  fun name => if name = "Z60" then plus60Zone else utcZone

/-- A three-class scrape result used by witnesses. -/
def scrapeExample : ScrapeResult :=
  ⟨⟨"Gym", "https://gym.example"⟩, [⟨"Main", none, "UTC"⟩],
   [⟨"Yoga", "6:00 PM", none, none, none, none⟩,
    ⟨"Power", "7:00 PM", none, none, none, none⟩,
    ⟨"Spin", "8:00 PM", none, none, none, none⟩]⟩

/-- A zero-class scrape result. -/
def emptyScrape : ScrapeResult :=
  ⟨⟨"Gym", "https://gym.example"⟩, [], []⟩

/-- A scrape result whose location has a present, non-default timezone. -/
def scrapeZ60 : ScrapeResult :=
  ⟨⟨"Gym", "https://gym.example"⟩, [⟨"Main", none, "Z60"⟩],
   [⟨"Yoga", "6:00 PM", none, none, none, some "loc-main"⟩]⟩

/-- Trap detector state after one passing checkContent on url a of host
x.example with content hello world (under the identity hash stand-in). -/
def seededTrapState : TrapState :=
  ⟨[("x.example", ["https://x.example/a"])],
   [("x.example", ["hello world"])],
   [("x.example", 1)]⟩

/-- A fetch world whose light path succeeds with a rendered schedule. -/
def fetchOkWorld : FetchWorld :=
  ⟨true, .ok ⟨200, "Monday 6:00 PM Yoga"⟩, .error ()⟩

/-- Persist outcomes that always succeed with one location. -/
def persistOkWorld : PersistWorld :=
  ⟨fun _ => .ok "org1", fun _ => .ok [("Main", "loc1")]⟩

/-- A retry attempt world (never reached by the witnesses). -/
def attemptExample : AttemptWorld :=
  ⟨fetchOkWorld, "", fun _ => .error (), persistOkWorld⟩

/-- A plan world with no planner findings. -/
def planExample : PlanWorld := ⟨false, false, fetchOkWorld, false, none⟩

/-- A run world for the happy path: light fetch accepted, three classes
extracted, everything persisted. -/
def runWorldExample : RunWorld :=
  ⟨fetchOkWorld, false, planExample, fun _ => .ok scrapeExample, persistOkWorld,
   attemptExample, fun s => s, fun _ => utcZone, epochRef⟩

/-! ## C10 — the scraper factory -/

/-- C10: for every HTML input the scraper factory returns the generic
scraper; the MindBody, Glofox and Marianatek signature branches perform
no action, so platform-signature matches never change the result. -/
theorem c10_factory_always_generic (html : String) :
    getScraperForHtml html = ScraperKind.generic := by
  unfold getScraperForHtml
  repeat' split
  all_goals rfl

/-! ## C8 — header sanitisation -/

/-- C8 counterexample: the header sec-fetch-user starts with sec-fetch-
yet sanitiseHeaders copies it, refuting the claim that every header whose
name starts with sec-fetch- is excluded. -/
theorem c8_counterexample :
    sanitiseHeaders [("sec-fetch-user", "?1")] = [("sec-fetch-user", "?1")] ∧
      "sec-fetch-".data.isPrefixOf "sec-fetch-user".data = true := by
  constructor
  · rfl
  · decide

/-- C8 amended: a header is kept by sanitiseHeaders iff it occurs in the
input and its lowercased name is none of host, content-length,
transfer-encoding, connection, cookie, sec-fetch-site, sec-fetch-mode and
sec-fetch-dest; kept headers are copied unchanged (same name and value). -/
theorem c8_sanitise_headers_membership (headers : List (String × String))
    (k v : String) :
    (k, v) ∈ sanitiseHeaders headers ↔
      (k, v) ∈ headers ∧ ¬ (headerSkipSet.contains (toLowerStr k) = true) := by
  unfold sanitiseHeaders
  rw [List.mem_filter]
  simp

/-! ## C7 — validator confidence -/

/-- C7 counterexample: a zero-class result validated with a live page
showing a pagination control has confidence 0.07, not 0.1, refuting that
every zero-class input yields exactly 0.1. -/
theorem c7_counterexample :
    (validateExtraction emptyScrape (some ⟨true, false⟩) "").confidence.val = 7/100 ∧
      ((7 : ℚ)/100) ≠ 1/10 := by
  constructor
  · have h : (validateExtraction emptyScrape (some ⟨true, false⟩) "").confidence
        = ⟨7, 100⟩ := by decide
    rw [h]
    unfold Frac.val
    norm_num
  · norm_num

/-- C7 amended: when every check passes the confidence is exactly 1, and
a zero-class result validated without a live page (so the page-dependent
checks are skipped) has confidence exactly 0.1; with a live page the two
page checks additionally scale the confidence by their factors. -/
theorem c7_validator_confidence :
    (∀ (r : ScrapeResult) (page : Option PageSignals) (html : String),
      (checkCountPlausibility r).factor = ⟨1, 1⟩ →
      (checkContentCoherence r).factor = ⟨1, 1⟩ →
      (checkDuplicates r).factor = ⟨1, 1⟩ →
      (∀ sg, page = some sg →
        (checkPaginationState sg).factor = ⟨1, 1⟩ ∧
          (checkAuthWall sg html).factor = ⟨1, 1⟩) →
      (validateExtraction r page html).confidence.val = 1) ∧
    (∀ (r : ScrapeResult) (html : String), r.classes = [] →
      (validateExtraction r none html).confidence.val = 1/10) := by
  constructor
  · intro r page html h1 h2 h3 h45
    cases page with
    | none =>
      simp [validateExtraction, h1, h2, h3, Frac.mul, Frac.val]
    | some sg =>
      obtain ⟨h4, h5⟩ := h45 sg rfl
      simp [validateExtraction, h1, h2, h3, h4, h5, Frac.mul, Frac.val]
  · intro r html h
    simp [validateExtraction, checkCountPlausibility, checkContentCoherence,
      checkDuplicates, h, Frac.mul, Frac.val]

/-- Closed instance of the amended C7 statement: all checks pass on the
three-class example (confidence 1), and the zero-class example without a
page scores exactly 0.1. -/
theorem c7_witness :
    (validateExtraction scrapeExample none "x").confidence.val = 1 ∧
    (validateExtraction emptyScrape none "x").confidence.val = 1/10 := by
  refine ⟨c7_validator_confidence.1 scrapeExample none "x" (by decide) (by decide)
    (by decide) ?_, c7_validator_confidence.2 emptyScrape "x" rfl⟩
  intro sg hsg
  cases hsg

/-! ## C4 — the fetch decision rule -/

/-- C4: with no force-browser flag and a light 200 response, the light
result is accepted iff the body contains at least one time-like token and
at least one day-name token; lacking either, the decision rule selects
the browser path. -/
theorem c4_fetch_decision (w : FetchWorld) (body : String)
    (hra : w.robotsAllowed = true)
    (hl : w.light = .ok ⟨200, body⟩) :
    (¬ (hasTimeToken body.data = true ∧ hasDayToken body.data = true) →
      fetchWithStealth w false = browserFetchPath w.browser) ∧
    (fetchWithStealth w false =
        .ok { html := body, statusCode := 200, fetchMethod := .light, page := none } ↔
      (hasTimeToken body.data = true ∧ hasDayToken body.data = true)) := by
  have hfetch : fetchWithStealth w false =
      (if looksLikeRenderedSchedule body then
        .ok { html := body, statusCode := 200, fetchMethod := .light, page := none }
      else browserFetchPath w.browser) := by
    unfold fetchWithStealth
    rw [hra, hl]
    simp [looksLikeRenderedSchedule]
  have hbrowser : ∀ (b : Except Unit BrowserFetch), browserFetchPath b ≠
      .ok { html := body, statusCode := 200, fetchMethod := .light, page := none } := by
    intro b
    unfold browserFetchPath
    cases b with
    | error e => simp
    | ok bf =>
      by_cases h402 : bf.statusCode = 402
      · simp [h402]
      · simp [h402]
  constructor
  · intro hno
    rw [hfetch, if_neg]
    unfold looksLikeRenderedSchedule
    simp only [Bool.and_eq_true]
    exact fun hc => hno hc
  · rw [hfetch]
    constructor
    · intro he
      by_contra hno
      rw [if_neg] at he
      · exact hbrowser w.browser he
      · unfold looksLikeRenderedSchedule
        simp only [Bool.and_eq_true]
        exact fun hc => hno hc
    · intro hyes
      rw [if_pos]
      unfold looksLikeRenderedSchedule
      simp only [Bool.and_eq_true]
      exact hyes

/-- Closed instance of C4: a schedule-looking body is accepted on the
light path, and an SPA shell selects the browser path. -/
theorem c4_witness :
    fetchWithStealth fetchOkWorld false =
      .ok { html := "Monday 6:00 PM Yoga", statusCode := 200,
            fetchMethod := .light, page := none } ∧
    fetchWithStealth ⟨true, .ok ⟨200, "<div id=root></div>"⟩, .error ()⟩ false =
      browserFetchPath (.error ()) := by
  constructor
  · exact (c4_fetch_decision fetchOkWorld "Monday 6:00 PM Yoga" rfl rfl).2.mpr
      (by constructor <;> decide)
  · exact (c4_fetch_decision ⟨true, .ok ⟨200, "<div id=root></div>"⟩, .error ()⟩
      "<div id=root></div>" rfl rfl).1 (by decide)

/-! ## C9 and C5 — trap detector state -/

/-- Looking up a key right after setting it yields the set value. -/
theorem alookup_aset {α : Type} (m : List (String × α)) (k : String) (v : α) :
    alookup (aset m k v) k = some v := by
  unfold aset
  split
  · rename_i hany
    induction m with
    | nil => simp at hany
    | cons p rest ih =>
      by_cases hp : p.1 = k
      · simp [alookup, List.find?, hp]
      · simp only [List.any_cons, Bool.or_eq_true, decide_eq_true_eq] at hany
        rcases hany with h | h
        · exact absurd h hp
        · have := ih (by simp [h])
          simpa [alookup, List.find?, hp] using this
  · rename_i hnone
    induction m with
    | nil => simp [alookup, List.find?]
    | cons p rest ih =>
      simp only [List.any_cons, Bool.or_eq_true, decide_eq_true_eq, not_or] at hnone
      have h2 := ih (by simp [hnone.2])
      simpa [alookup, List.find?, hnone.1] using h2

/-- Adding an element to a set unless present leaves it contained. -/
theorem contains_after_add (l : List String) (u : String) :
    (if l.contains u = true then l else l ++ [u]).contains u = true := by
  split
  · rename_i h
    exact h
  · simp

/-- C9: when checkContent rejects (duplicate content hash or low
information density) the detector state is returned completely
unchanged: the URL is not marked visited, the hash is not recorded and
the depth counter is not incremented. -/
theorem c9_reject_preserves_state (hashFn : String → String) (st : TrapState)
    (url content : String) (k : Nat) (res : TrapCheckResult) (st2 : TrapState)
    (hcc : checkContent hashFn st url content k = (res, st2))
    (hsafe : res.safe = false) : st2 = st := by
  simp only [checkContent] at hcc
  split at hcc
  · cases hcc
    rfl
  · split at hcc
    · cases hcc
      rfl
    · cases hcc
      simp at hsafe

/-- Closed instance of C9: a duplicate-content rejection on the seeded
state leaves it untouched. -/
theorem c9_witness :
    (checkContent (fun s => s) seededTrapState "https://x.example/b"
        "hello world" 0).2 = seededTrapState :=
  c9_reject_preserves_state (fun s => s) seededTrapState "https://x.example/b"
    "hello world" 0
    (checkContent (fun s => s) seededTrapState "https://x.example/b" "hello world" 0).1
    (checkContent (fun s => s) seededTrapState "https://x.example/b" "hello world" 0).2
    rfl (by decide)

/-- C5 counterexample: starting from a fresh detector, visit url a of
host x.example (checkContent passes and records its hash).  For url b of
the same host with the same content, the claimed sequence checkUrl,
checkContent, checkUrl yields safe=true on the second checkUrl, because
the duplicate-content rejection does not mark url b visited.  The stand-in
hash function is injective on the two contents involved, as SHA-256 is. -/
theorem c5_counterexample :
    (checkContent (fun s => s) TrapState.empty "https://x.example/a"
        "hello world" 3).2 = seededTrapState ∧
    (checkUrl seededTrapState 5 "https://x.example/b").safe = true ∧
    (checkContent (fun s => s) seededTrapState "https://x.example/b"
        "hello world" 0).1.safe = false ∧
    (checkUrl (checkContent (fun s => s) seededTrapState "https://x.example/b"
        "hello world" 0).2 5 "https://x.example/b").safe = true := by
  refine ⟨by decide, by decide, by decide, by decide⟩

/-- C5 amended: whenever the intervening checkContent returns safe=true,
the subsequent checkUrl on the same URL returns safe=false (the URL has
been recorded as visited, or the incremented depth hits the limit); a
rejected checkContent leaves the state unchanged, so the second checkUrl
can stay safe. -/
theorem c5_checkcontent_pass_blocks_checkurl (hashFn : String → String)
    (maxDepth : Nat) (st : TrapState) (url content : String) (k : Nat)
    (res : TrapCheckResult) (st2 : TrapState)
    (hcc : checkContent hashFn st url content k = (res, st2))
    (hsafe : res.safe = true) :
    (checkUrl st2 maxDepth url).safe = false := by
  simp only [checkContent] at hcc
  split at hcc
  · cases hcc
    simp at hsafe
  · rename_i hdup
    split at hcc
    · rename_i hdr
      cases hcc
      rw [hsafe] at hdr
      simp at hdr
    · cases hcc
      simp only [checkUrl, alookup_aset, Option.getD_some]
      split
      · rfl
      · rw [contains_after_add]
        simp

/-- Closed instance of the amended C5 statement: after a passing
checkContent from the fresh state, checkUrl on the same URL rejects. -/
theorem c5_witness :
    (checkUrl (checkContent (fun s => s) TrapState.empty "https://x.example/a"
        "hello world" 3).2 5 "https://x.example/a").safe = false :=
  c5_checkcontent_pass_blocks_checkurl (fun s => s) 5 TrapState.empty
    "https://x.example/a" "hello world" 3
    (checkContent (fun s => s) TrapState.empty "https://x.example/a" "hello world" 3).1
    (checkContent (fun s => s) TrapState.empty "https://x.example/a" "hello world" 3).2
    rfl (by decide)

/-! ## C2 — the normalize stage and the timezone argument -/

/-- The scrape example with its locations removed (same classes). -/
def scrapeNoLoc : ScrapeResult := { scrapeExample with locations := [] }

/-- C2 counterexample: stage 7 normalizes the class with the gymTimezone
argument (UTC reading 18:00Z) although its location carries the present
timezone Z60, whose reading would be 17:00Z; the location timezone is
not consulted, refuting the claim. -/
theorem c2_counterexample :
    (stage7 dbTwoZones epochRef "UTC" scrapeZ60).2.map (fun c => c.startTime) =
      ["1970-01-01T18:00:00.000Z"] ∧
    safeNormalize "6:00 PM" (dbTwoZones "Z60") epochRef =
      "1970-01-01T17:00:00.000Z" ∧
    ("1970-01-01T18:00:00.000Z" : String) ≠ "1970-01-01T17:00:00.000Z" := by
  refine ⟨by decide, by decide, by decide⟩

/-- C2 amended: the normalize stage uses the gymTimezone argument for
every class: the normalized classes are invariant under any change of the
locations (in particular of their timezones), and each output start time
is safeNormalize of the raw start time in the gymTimezone; the location
timezone only feeds the location rows, where a UTC value is replaced by
the argument. -/
theorem c2_normalize_uses_gym_timezone (db : String → ZoneRules)
    (now : LDateTime) (gymTz : String) (s s2 : ScrapeResult)
    (h : s.classes = s2.classes) :
    (stage7 db now gymTz s).2 = (stage7 db now gymTz s2).2 ∧
    (stage7 db now gymTz s).2.map (fun c => c.startTime) =
      s.classes.map (fun c => safeNormalize c.startTime (db gymTz) now) := by
  constructor
  · simp [stage7, h]
  · simp [stage7, List.map_map]

/-- Closed instance of the amended C2 statement: removing the locations
leaves the normalized classes unchanged, and the outputs are the
gymTimezone normalizations. -/
theorem c2_witness :
    (stage7 (fun _ => utcZone) epochRef "UTC" scrapeExample).2 =
      (stage7 (fun _ => utcZone) epochRef "UTC" scrapeNoLoc).2 ∧
    (stage7 (fun _ => utcZone) epochRef "UTC" scrapeExample).2.map
        (fun c => c.startTime) =
      scrapeExample.classes.map
        (fun c => safeNormalize c.startTime ((fun _ => utcZone) "UTC") epochRef) :=
  c2_normalize_uses_gym_timezone (fun _ => utcZone) epochRef "UTC"
    scrapeExample scrapeNoLoc rfl

/-! ## C3 — paywall abort -/

/-- C3: when the light path answers 402 (robots allowing, no force flag),
the fetch layer returns the paywall result on the light path without
falling back to the browser, and the run terminates with the paywall
error before the extract stage: no scraper call and no upsert occur, and
the trap state is untouched. -/
theorem c3_paywall_aborts_run (w : RunWorld) (maxDepth : Nat) (trap : TrapState)
    (url gymTz body : String)
    (htc : (checkUrl trap maxDepth url).safe = true)
    (hra : w.fetch1.robotsAllowed = true)
    (hl : w.fetch1.light = .ok ⟨402, body⟩) :
    fetchWithStealth w.fetch1 false =
      .ok { html := "", statusCode := 402, fetchMethod := .light, page := none } ∧
    (runModel w maxDepth trap url gymTz).1 = .error .paywall ∧
    (runModel w maxDepth trap url gymTz).2.1.effects = [] ∧
    (runModel w maxDepth trap url gymTz).2.2 = trap := by
  have hf : fetchWithStealth w.fetch1 false =
      .ok { html := "", statusCode := 402, fetchMethod := .light, page := none } := by
    unfold fetchWithStealth
    rw [hra, hl]
    simp
  have hrun : runModel w maxDepth trap url gymTz =
      (.error .paywall, ⟨[], none⟩, trap) := by
    simp only [runModel, htc, hf]
    simp
  exact ⟨hf, by rw [hrun], by rw [hrun], by rw [hrun]⟩

/-- Closed instance of C3. -/
theorem c3_witness :
    fetchWithStealth (⟨true, .ok ⟨402, "payment required"⟩, .error ()⟩ : FetchWorld)
        false =
      .ok { html := "", statusCode := 402, fetchMethod := .light, page := none } ∧
    (runModel { runWorldExample with
        fetch1 := ⟨true, .ok ⟨402, "payment required"⟩, .error ()⟩ } 5
        TrapState.empty "https://gym.example/schedule" "UTC").1 =
      .error .paywall ∧
    (runModel { runWorldExample with
        fetch1 := ⟨true, .ok ⟨402, "payment required"⟩, .error ()⟩ } 5
        TrapState.empty "https://gym.example/schedule" "UTC").2.1.effects = [] ∧
    (runModel { runWorldExample with
        fetch1 := ⟨true, .ok ⟨402, "payment required"⟩, .error ()⟩ } 5
        TrapState.empty "https://gym.example/schedule" "UTC").2.2 =
      TrapState.empty :=
  c3_paywall_aborts_run
    { runWorldExample with fetch1 := ⟨true, .ok ⟨402, "payment required"⟩, .error ()⟩ }
    5 TrapState.empty "https://gym.example/schedule" "UTC" "payment required"
    (by decide) rfl rfl

/-! ## C1 — classesUpserted counts the valid start instants -/

/-- On success the class upsert reports one row per sent class, and every
sent class has a valid UTC start instant, so the count equals the number
of classes with a valid start instant. -/
theorem upsertClasses_ok_count (cls : List GymClass) (n : Nat)
    (h : upsertClasses cls = .ok n) :
    n = cls.countP (fun c => isUtcInstant c.startTime) := by
  unfold upsertClasses at h
  split at h
  · rename_i hemp
    cases h
    rw [List.isEmpty_iff] at hemp
    subst hemp
    simp
  · split at h
    · rename_i hall
      cases h
      rw [List.all_eq_true] at hall
      symm
      rw [List.countP_eq_length]
      intro c hc
      have hcv := hall c hc
      simp only [Bool.and_eq_true] at hcv
      exact hcv.1.1
    · cases h

/-- Stages 7 and 8: a successful persist reports exactly the number of
extracted classes whose normalized start time is a valid UTC instant. -/
theorem attemptTail_ok_count (pw : PersistWorld) (db : String → ZoneRules)
    (now : LDateTime) (gymTz : String) (s : ScrapeResult) (res : ScanResult)
    (effs : List Effect) (h : attemptTail pw db now gymTz s = (.ok res, effs)) :
    res.classesUpserted = s.classes.countP
      (fun c => isUtcInstant (safeNormalize c.startTime (db gymTz) now)) := by
  simp only [attemptTail, persistStages] at h
  split at h
  · simp at h
  · split at h
    · simp at h
    · split at h
      · simp at h
      · rename_i orgId locMap n hupsert
        rw [Prod.mk.injEq] at h
        obtain ⟨h1, _⟩ := h
        rw [Except.ok.injEq] at h1
        subst h1
        have hcount := upsertClasses_ok_count _ _ hupsert
        simp only [hcount]
        rw [stage7]
        simp only [List.countP_map]
        rfl

/-- A successful runWithOptions records the extraction it persisted, and
its count satisfies the C1 equation. -/
theorem runWithOptions_ok_count (aw : AttemptWorld) (db : String → ZoneRules)
    (now : LDateTime) (gymTz : String) (fb ew : Bool) (res : ScanResult)
    (tr : RunTrace) (h : runWithOptionsModel aw db now gymTz fb ew = (.ok res, tr)) :
    ∃ s, tr.finalScrape = some s ∧
      res.classesUpserted = s.classes.countP
        (fun c => isUtcInstant (safeNormalize c.startTime (db gymTz) now)) := by
  simp only [runWithOptionsModel] at h
  split at h
  · simp at h
  · split at h
    · simp at h
    · rename_i s hs
      rw [Prod.mk.injEq] at h
      obtain ⟨h1, h2⟩ := h
      refine ⟨s, ?_, ?_⟩
      · rw [← h2]
      · exact attemptTail_ok_count aw.persist db now gymTz s res _
          (Prod.ext h1 rfl)

/-- A retry that returns a result satisfies the C1 equation on its
recorded extraction. -/
theorem retryWithHint_some_count (aw : AttemptWorld) (db : String → ZoneRules)
    (now : LDateTime) (gymTz : String) (hint : RetryHint) (res : ScanResult)
    (tr2 : RunTrace) (h : retryWithHint aw db now gymTz hint = (some res, tr2)) :
    ∃ s, tr2.finalScrape = some s ∧
      res.classesUpserted = s.classes.countP
        (fun c => isUtcInstant (safeNormalize c.startTime (db gymTz) now)) := by
  simp only [retryWithHint] at h
  split at h
  · rename_i res2 heq
    rw [Prod.mk.injEq] at h
    obtain ⟨h1, h2⟩ := h
    rw [Option.some.injEq] at h1
    rw [h1] at heq
    subst h2
    exact runWithOptions_ok_count aw db now gymTz true _ res _ (Prod.ext heq rfl)
  · simp at h

/-- C1: for every run of the orchestrator that returns success, the
returned classesUpserted equals the number of extracted classes (of the
attempt that persisted, recorded in the trace) whose normalized start
instant is a valid UTC instant.  The sink model rejects whole batches
holding an invalid start, so a successful run has all starts valid and
the count is exact. -/
theorem c1_run_upserted_count (w : RunWorld) (maxDepth : Nat) (trap : TrapState)
    (url gymTz : String) (res : ScanResult) (tr : RunTrace) (st2 : TrapState)
    (h : runModel w maxDepth trap url gymTz = (.ok res, tr, st2)) :
    ∃ s, tr.finalScrape = some s ∧
      res.classesUpserted = s.classes.countP
        (fun c => isUtcInstant (safeNormalize c.startTime (w.db gymTz) w.now)) := by
  simp only [runModel] at h
  split at h
  · simp at h
  · split at h
    · simp at h
    · split at h
      · split at h <;> simp at h
      · split at h
        · simp at h
        · rename_i s hs
          split at h
          · rename_i hint hhint
            split at h
            · rename_i res2 heq
              rw [Prod.mk.injEq] at h
              obtain ⟨h1, h2⟩ := h
              rw [Except.ok.injEq] at h1
              subst h1
              rw [Prod.mk.injEq] at h2
              obtain ⟨h2, _⟩ := h2
              obtain ⟨s2, hs2, hcount⟩ := retryWithHint_some_count w.retry w.db w.now
                gymTz hint res2 _ (Prod.ext heq rfl)
              refine ⟨s2, ?_, hcount⟩
              rw [← h2]
              exact hs2
            · rw [Prod.mk.injEq] at h
              obtain ⟨h1, h2⟩ := h
              rw [Prod.mk.injEq] at h2
              obtain ⟨h2, _⟩ := h2
              refine ⟨s, by rw [← h2], ?_⟩
              exact attemptTail_ok_count w.persist w.db w.now gymTz s res _
                (Prod.ext h1 rfl)
          · rw [Prod.mk.injEq] at h
            obtain ⟨h1, h2⟩ := h
            rw [Prod.mk.injEq] at h2
            obtain ⟨h2, _⟩ := h2
            refine ⟨s, by rw [← h2], ?_⟩
            exact attemptTail_ok_count w.persist w.db w.now gymTz s res _
              (Prod.ext h1 rfl)

/-- Closed instance of C1 on the happy-path world: three classes, all
with valid normalized starts, upserted count three. -/
theorem c1_witness :
    ∃ s, (runModel runWorldExample 5 TrapState.empty
        "https://gym.example/schedule" "UTC").2.1.finalScrape = some s ∧
      (3 : Nat) = s.classes.countP
        (fun c => isUtcInstant (safeNormalize c.startTime
          (runWorldExample.db "UTC") runWorldExample.now)) :=
  c1_run_upserted_count runWorldExample 5 TrapState.empty
    "https://gym.example/schedule" "UTC" ⟨"org1", ["loc1"], 3⟩
    (runModel runWorldExample 5 TrapState.empty
      "https://gym.example/schedule" "UTC").2.1
    (runModel runWorldExample 5 TrapState.empty
      "https://gym.example/schedule" "UTC").2.2
    (by decide)

/-! ## C6 — the normalizer is not idempotent -/

/-- A rendered decimal digit is a digit character. -/
theorem digitCh_isDigit (n : Nat) : isDigitCh (digitCh n) = true := by
  have h : n % 10 < 10 := Nat.mod_lt _ (by norm_num)
  unfold digitCh
  revert h
  generalize n % 10 = k
  intro h
  interval_cases k <;> decide

/-- A rendered decimal digit is not a letter. -/
theorem digitCh_not_alpha (n : Nat) : isAsciiAlphaCh (digitCh n) = false := by
  have h : n % 10 < 10 := Nat.mod_lt _ (by norm_num)
  unfold digitCh
  revert h
  generalize n % 10 = k
  intro h
  interval_cases k <;> decide

/-- A rendered decimal digit is not whitespace. -/
theorem digitCh_not_ws (n : Nat) : jsWs (digitCh n) = false := by
  have h : n % 10 < 10 := Nat.mod_lt _ (by norm_num)
  unfold digitCh
  revert h
  generalize n % 10 = k
  intro h
  interval_cases k <;> decide

/-- Uppercasing does not change a rendered decimal digit. -/
theorem digitCh_toUpper (n : Nat) : toUpperCh (digitCh n) = digitCh n := by
  have h : n % 10 < 10 := Nat.mod_lt _ (by norm_num)
  unfold digitCh
  revert h
  generalize n % 10 = k
  intro h
  interval_cases k <;> decide

/-- A rendered decimal digit is not the colon. -/
theorem digitCh_ne_colon (n : Nat) : (digitCh n = ':') = False := by
  have h : n % 10 < 10 := Nat.mod_lt _ (by norm_num)
  unfold digitCh
  revert h
  generalize n % 10 = k
  intro h
  interval_cases k <;> decide

/-- A rendered decimal digit is not the letter A. -/
theorem digitCh_ne_A (n : Nat) : (digitCh n = 'A') = False := by
  have h : n % 10 < 10 := Nat.mod_lt _ (by norm_num)
  unfold digitCh
  revert h
  generalize n % 10 = k
  intro h
  interval_cases k <;> decide

/-- A rendered decimal digit is not the letter P. -/
theorem digitCh_ne_P (n : Nat) : (digitCh n = 'P') = False := by
  have h : n % 10 < 10 := Nat.mod_lt _ (by norm_num)
  unfold digitCh
  revert h
  generalize n % 10 = k
  intro h
  interval_cases k <;> decide

/-- Trimming leaves an emitted ISO instant unchanged: it neither starts
nor ends with whitespace. -/
theorem jsTrimL_isoChars (dt : LDateTime) : jsTrimL (isoChars dt) = isoChars dt := by
  simp [isoChars, jsTrimL, List.dropWhile, digitCh_not_ws,
    show jsWs 'Z' = false from rfl]

/-- The day-and-time split finds no leading day word in an emitted ISO
instant: the first character is a digit, not a letter. -/
theorem splitDayAndTime_isoChars (dt : LDateTime) :
    splitDayAndTime (isoChars dt) = (none, isoChars dt) := by
  simp [isoChars, splitDayAndTime, List.takeWhile, digitCh_not_alpha]

/-- parseTime rejects an emitted ISO instant: after trimming and
uppercasing, the string starts with three digit characters, which match
neither the anchored 12-hour shape nor the 24-hour shape. -/
theorem parseTimeL_isoChars (dt : LDateTime) :
    parseTimeL (isoChars dt) = none := by
  unfold parseTimeL
  rw [jsTrimL_isoChars]
  simp [isoChars, match12core, match24core, readD, minTail, ampmEnd, colonTail,
    digitCh_isDigit, digitCh_ne_colon, digitCh_toUpper, digitCh_ne_A,
    digitCh_ne_P, digitCh_not_ws,
    show toUpperCh '-' = '-' from rfl, show toUpperCh ':' = ':' from rfl,
    show toUpperCh '.' = '.' from rfl, show toUpperCh 'T' = 'T' from rfl,
    show toUpperCh 'Z' = 'Z' from rfl]

/-- The normalizer rejects its own output: normalizeDateTime fails on
every string isoChars emits. -/
theorem normalizeCore_isoChars (dt : LDateTime) (tz : ZoneRules)
    (ref : LDateTime) : normalizeCore (isoChars dt) tz ref = none := by
  simp only [normalizeCore, jsTrimL_isoChars, splitDayAndTime_isoChars,
    parseTimeL_isoChars]

/-- C6 counterexample: 6:00 PM normalizes in UTC from the epoch reference
to 1970-01-01T18:00:00.000Z, but normalizing that output again fails
(parseTime accepts none of its shapes on an ISO instant), so
normalize(normalize(x, tz), tz) = normalize(x, tz) is refuted. -/
theorem c6_counterexample :
    normalizeDateTime "6:00 PM" utcZone epochRef =
      some "1970-01-01T18:00:00.000Z" ∧
    normalizeDateTime "1970-01-01T18:00:00.000Z" utcZone epochRef = none := by
  refine ⟨by decide, by decide⟩

/-- C6 amended: the normalizer is not idempotent on any parseable input.
Whenever normalizeDateTime succeeds, re-normalizing its output fails (in
any zone and from any reference instant), because the emitted ISO-8601
UTC string matches none of the three accepted time shapes. -/
theorem c6_normalize_not_idempotent (raw : String) (tz tz2 : ZoneRules)
    (ref ref2 : LDateTime) (out : String)
    (h : normalizeDateTime raw tz ref = some out) :
    normalizeDateTime out tz2 ref2 = none := by
  unfold normalizeDateTime at h
  rcases hcore : normalizeCore raw.data tz ref with _ | cs
  · rw [hcore] at h
    exact Option.noConfusion h
  · rw [hcore] at h
    rw [show Option.map String.mk (some cs) = some (String.mk cs) from rfl,
      Option.some.injEq] at h
    simp only [normalizeCore] at hcore
    split at hcore
    · simp at hcore
    · split at hcore
      · rw [Option.some.injEq] at hcore
        rw [← h, ← hcore]
        unfold normalizeDateTime
        show (normalizeCore (isoChars _) tz2 ref2).map String.mk = none
        rw [normalizeCore_isoChars]
        rfl
      · simp at hcore

/-- Closed instance of the amended C6 statement: the normalized 6:00 PM
fails re-normalization. -/
theorem c6_witness :
    normalizeDateTime "1970-01-01T18:00:00.000Z" utcZone epochRef = none :=
  c6_normalize_not_idempotent "6:00 PM" utcZone utcZone epochRef epochRef
    "1970-01-01T18:00:00.000Z" (by decide)

end GymScraper
